import Mathlib

/-!
Verification of the OpenSlides client fragment: the projector assignment
service (`ProjectorService`) and the login mask component
(`LoginMaskComponent`).

The service's element/history/preview bookkeeping is embedded as pure
state-passing functions: a mutating method of the TypeScript `Projector`
model becomes a function returning the updated projector (and, where the
method returns a value, a pair).  The single outbound HTTP request of each
state-changing operation is reified as a `ProjectRequest` value; the
synchronous throw in `projectRequest` is modelled with `Except`.
-/

deriving instance DecidableEq for Except

/-- A projector element as used by the service: the resolvable model type
string `name`, the optional instance `id`, and the `stable` flag
(non-stable elements are mutually exclusive on a projector). -/
structure ProjectorElement where
  name : String
  id : Option Nat
  stable : Bool
deriving DecidableEq, Repr

/-- The `ProjectorElements` type alias of the model layer: an ordered
sequence of elements. -/
abbrev ProjectorElements := List ProjectorElement

/-- The slice of the `Projector` model entity that the service reads and
mutates: the three ordered element sequences, plus the entity id used in
the request path. -/
structure Projector where
  id : Nat
  elements : ProjectorElements
  elements_preview : ProjectorElements
  elements_history : List ProjectorElements
deriving DecidableEq, Repr

/-- Modelled from the spec: the structural/identifying equality on projector
elements (the identifying fields `name` and `id`) used by the `Projector`
model class methods `isElementShown` and `removeElements`, whose code is
not part of this fragment. -/
def elementsMatch (a b : ProjectorElement) : Bool :=
  a.name == b.name && a.id == b.id

/-- Modelled from the spec: `Projector.isElementShown(element)` of the model
class (not part of this fragment) tests membership of the element in the
current `elements` sequence by identifying equality. -/
def Projector.isElementShown (p : Projector) (element : ProjectorElement) : Bool :=
  p.elements.any fun x => elementsMatch x element

/-- Modelled from the spec: `Projector.addElement(element)` of the model
class (not part of this fragment) appends the element to `elements`. -/
def Projector.addElement (p : Projector) (element : ProjectorElement) : Projector :=
  { p with elements := p.elements ++ [element] }

/-- Modelled from the spec: `Projector.removeAllNonStableElements()` of the
model class (not part of this fragment) removes every non-stable element
from `elements` and returns the removed elements in their prior order.
First component: the updated projector; second: the removed elements. -/
def Projector.removeAllNonStableElements (p : Projector) : Projector × ProjectorElements :=
  ({ p with elements := p.elements.filter fun e => e.stable },
   p.elements.filter fun e => !e.stable)

/-- Modelled from the spec: `Projector.removeElements(element)` of the model
class (not part of this fragment) removes all occurrences matching the
element from `elements` and returns the removed occurrences. -/
def Projector.removeElements (p : Projector) (element : ProjectorElement) : Projector × ProjectorElements :=
  ({ p with elements := p.elements.filter fun x => !(elementsMatch x element) },
   p.elements.filter fun x => elementsMatch x element)

/-- An input of type `Projectable | ProjectorElementBuildDeskriptor |
IdentifiableProjectorElement`.  `slideElement` is
`obj.getSlide().getBasicProjectorElement()` when `isProjectable(obj)`
holds (`none` otherwise); `basicElement` is
`obj.getBasicProjectorElement()` when `isProjectorElementBuildDeskriptor(obj)`
holds; `selfElement` is the object itself viewed as an
`IdentifiableProjectorElement` (the fallback branch). -/
structure ProjectableInput where
  slideElement : Option ProjectorElement
  basicElement : Option ProjectorElement
  selfElement : ProjectorElement
deriving DecidableEq, Repr

/-- `ProjectorService.getProjectorElement`: `if (isProjectable(obj))` return
the slide's basic element; `else if (isProjectorElementBuildDeskriptor(obj))`
return the built basic element; `else` return the object itself. -/
def getProjectorElement (obj : ProjectableInput) : ProjectorElement :=
  match obj.slideElement with
  | some slideElem => slideElem
  | none =>
    match obj.basicElement with
    | some basicElem => basicElem
    | none => obj.selfElement

/-- `ProjectorService.isProjectedOn(obj, projector)`: membership of the
resolved element in the projector's current `elements`. -/
def isProjectedOn (obj : ProjectableInput) (projector : Projector) : Bool :=
  projector.isElementShown (getProjectorElement obj)

/-- The JSON body posted to `/rest/core/projector/{id}/project/`.  A field
that `projectRequest` leaves unset is `none` (respectively `false` for
`delete_last_history_element`, which is only ever set to `true`). -/
structure ProjectRequest where
  elements : Option ProjectorElements
  preview : Option ProjectorElements
  append_to_history : Option ProjectorElements
  delete_last_history_element : Bool
deriving DecidableEq, Repr

/-- `ProjectorService.projectRequest`: builds the request body field by
field (`elements` and `preview` are included whenever non-null, matching
JavaScript truthiness of arrays; `append_to_history` only when non-null
and non-empty; `delete_last_history_element` only when the flag is set),
then throws before posting when a non-empty append list and the delete
flag are both given.  `Except.ok` is the posted body; `Except.error` is
the synchronous throw (no request is sent). -/
def projectRequest (elements preview appendToHistory : Option ProjectorElements)
    (deleteLastHistroyElement : Bool) : Except String ProjectRequest :=
  let appendGiven : Bool :=
    match appendToHistory with
    | some l => l.length != 0
    | none => false
  let requestData : ProjectRequest :=
    { elements := elements
      preview := preview
      append_to_history := if appendGiven then appendToHistory else none
      delete_last_history_element := deleteLastHistroyElement }
  if appendGiven && deleteLastHistroyElement then
    Except.error "You cannot append to the history and delete the last element at the same time"
  else
    Except.ok requestData

/-- `ProjectorService.projectOn(projector, obj)`.  Returns the updated
projector and the request issued (`none` when the operation returns
without a request). -/
def projectOn (projector : Projector) (obj : ProjectableInput) :
    Projector × Option (Except String ProjectRequest) :=
  let element := getProjectorElement obj
  if element.stable then
    let p1 := projector.addElement element
    (p1, some (projectRequest (some p1.elements) none none false))
  else
    let afterRemove := projector.removeAllNonStableElements
    let p1 := afterRemove.1
    let removedElements := afterRemove.2
    let p2 := p1.addElement element
    (p2, some (projectRequest (some p2.elements) none (some removedElements) false))

/-- `ProjectorService.removeFrom(projector, obj)`: remove all occurrences of
the resolved element; send a request only when something was removed, with
the removed elements appended to the history for non-stable elements. -/
def removeFrom (projector : Projector) (obj : ProjectableInput) :
    Projector × Option (Except String ProjectRequest) :=
  let element := getProjectorElement obj
  let afterRemove := projector.removeElements element
  let p1 := afterRemove.1
  let removedElements := afterRemove.2
  let request : Option (Except String ProjectRequest) :=
    if removedElements.length > 0 then
      if element.stable then
        some (projectRequest (some p1.elements) none none false)
      else
        some (projectRequest (some p1.elements) none (some removedElements) false)
    else
      none
  (p1, request)

/-- `ProjectorService.projectPreviewSlide(projector, previewIndex)`.  The
guard returns early when the preview is empty or the index is at least its
length; otherwise the non-stable elements are evicted, the element at
`previewIndex` is spliced out of `elements_preview` and appended to
`elements`.  The index is a JavaScript number: `splice` resolves a
negative start as `max(length + start, 0)` (`Int.toNat` clamps at zero). -/
def projectPreviewSlide (projector : Projector) (previewIndex : Int) :
    Projector × Option (Except String ProjectRequest) :=
  if projector.elements_preview.length = 0 ∨
      (projector.elements_preview.length : Int) ≤ previewIndex then
    (projector, none)
  else
    let afterRemove := projector.removeAllNonStableElements
    let p1 := afterRemove.1
    let removedElements := afterRemove.2
    let j : Nat :=
      if previewIndex < 0 then ((p1.elements_preview.length : Int) + previewIndex).toNat
      else previewIndex.toNat
    match p1.elements_preview.get? j with
    | some spliced =>
      let p2 := { p1 with
        elements_preview := p1.elements_preview.take j ++ p1.elements_preview.drop (j + 1) }
      let p3 := p2.addElement spliced
      (p3, some (projectRequest (some p3.elements) (some p3.elements_preview)
        (some removedElements) false))
    | none =>
      (p1, none)

/-- `ProjectorService.projectNextSlide(projector)`: project the preview
element at index 0. -/
def projectNextSlide (projector : Projector) :
    Projector × Option (Except String ProjectRequest) :=
  projectPreviewSlide projector 0

/-- `ProjectorService.projectPreviousSlide(projector)`.  Reads (without
locally removing) the last history entry, evicts the non-stable elements
and unshifts each of them onto the front of `elements_preview`, appends the
first element of the last history entry (when the entry is non-empty), and
requests deletion of the last history entry via the
`delete_last_history_element` flag. -/
def projectPreviousSlide (projector : Projector) :
    Projector × Option (Except String ProjectRequest) :=
  if projector.elements_history.length = 0 then
    (projector, none)
  else
    let lastElements : ProjectorElements :=
      projector.elements_history.getD (projector.elements_history.length - 1) []
    let lastElement : Option ProjectorElement := lastElements.head?
    let afterRemove := projector.removeAllNonStableElements
    let p1 := afterRemove.1
    let removedElements := afterRemove.2
    let p2 := { p1 with
      elements_preview := removedElements.foldl (fun acc e => e :: acc) p1.elements_preview }
    let p3 :=
      match lastElement with
      | some e => p2.addElement e
      | none => p2
    (p3, some (projectRequest (some p3.elements) (some p3.elements_preview) none true))

/-- `ProjectorService.savePreview(projector)`: send the preview only. -/
def savePreview (projector : Projector) :
    Projector × Option (Except String ProjectRequest) :=
  (projector, some (projectRequest none (some projector.elements_preview) none false))

/-- `ProjectorService.addElementToPreview(projector, element)`: push the
element onto `elements_preview` and send the preview. -/
def addElementToPreview (projector : Projector) (element : ProjectorElement) :
    Projector × Option (Except String ProjectRequest) :=
  let p1 := { projector with elements_preview := projector.elements_preview ++ [element] }
  (p1, some (projectRequest none (some p1.elements_preview) none false))

/-- `LoginMaskComponent.createForm`: each of the two form fields carries
`Validators.required` and `Validators.maxLength(128)`, so a field value is
valid when it is non-empty and at most 128 characters long. -/
def loginFieldValid (value : String) : Bool :=
  value.length != 0 && decide (value.length ≤ 128)

/-- The login form is valid when both the username and the password field
pass their validators. -/
def loginFormValid (username password : String) : Bool :=
  loginFieldValid username && loginFieldValid password

/-- Modelled from the spec: a login submission reaches
`authService.login(username, password)` only when form validation passes;
the HTML template that gates submission on form validity is not part of
this fragment.  `some` carries the credentials handed to the network call;
`none` means validation rejected the submission before any network call. -/
def loginSubmit (username password : String) : Option (String × String) :=
  if loginFormValid username password then some (username, password) else none

/-- One observable effect of a state-changing service operation, in program
order: a synchronous mutation of the projector's in-memory state, or the
issuing of the HTTP post. -/
inductive Effect where
  | mutate (newState : Projector)
  | post (request : ProjectRequest)
deriving DecidableEq, Repr

/-- Runs an effect trace.  Mutations apply in program order; when the
transport fails, the awaited post rejects: nothing after the failing post
runs, and the mutations already applied are not rolled back.  Returns the
final in-memory state and whether the run completed without a transport
error. -/
def runTrace (state : Projector) (transportFails : Bool) :
    List Effect → Projector × Bool
  | [] => (state, true)
  | Effect.mutate s :: rest => runTrace s transportFails rest
  | Effect.post _ :: rest =>
    if transportFails then (state, false) else runTrace state transportFails rest

/-- The effects of an `await this.projectRequest(...)` statement: a post of
the built body, or no observable effect when the builder throws
synchronously before posting. -/
def requestEffects (r : Except String ProjectRequest) : List Effect :=
  match r with
  | Except.ok request => [Effect.post request]
  | Except.error _ => []

/-- Statement-order effect trace of `projectOn`: every mutation of the
projector happens before the single post. -/
def projectOnTrace (projector : Projector) (obj : ProjectableInput) : List Effect :=
  let element := getProjectorElement obj
  if element.stable then
    let p1 := projector.addElement element
    Effect.mutate p1 :: requestEffects (projectRequest (some p1.elements) none none false)
  else
    let afterRemove := projector.removeAllNonStableElements
    let p1 := afterRemove.1
    let p2 := p1.addElement element
    Effect.mutate p1 :: Effect.mutate p2 ::
      requestEffects (projectRequest (some p2.elements) none (some afterRemove.2) false)

/-- Statement-order effect trace of `removeFrom`. -/
def removeFromTrace (projector : Projector) (obj : ProjectableInput) : List Effect :=
  let element := getProjectorElement obj
  let afterRemove := projector.removeElements element
  let p1 := afterRemove.1
  if afterRemove.2.length > 0 then
    if element.stable then
      Effect.mutate p1 :: requestEffects (projectRequest (some p1.elements) none none false)
    else
      Effect.mutate p1 ::
        requestEffects (projectRequest (some p1.elements) none (some afterRemove.2) false)
  else
    [Effect.mutate p1]

/-- Statement-order effect trace of `projectPreviewSlide`. -/
def projectPreviewSlideTrace (projector : Projector) (previewIndex : Int) : List Effect :=
  if projector.elements_preview.length = 0 ∨
      (projector.elements_preview.length : Int) ≤ previewIndex then
    []
  else
    let afterRemove := projector.removeAllNonStableElements
    let p1 := afterRemove.1
    let j : Nat :=
      if previewIndex < 0 then ((p1.elements_preview.length : Int) + previewIndex).toNat
      else previewIndex.toNat
    match p1.elements_preview.get? j with
    | some spliced =>
      let p2 := { p1 with
        elements_preview := p1.elements_preview.take j ++ p1.elements_preview.drop (j + 1) }
      let p3 := p2.addElement spliced
      Effect.mutate p1 :: Effect.mutate p2 :: Effect.mutate p3 ::
        requestEffects (projectRequest (some p3.elements) (some p3.elements_preview)
          (some afterRemove.2) false)
    | none => [Effect.mutate p1]

/-- Statement-order effect trace of `projectPreviousSlide`. -/
def projectPreviousSlideTrace (projector : Projector) : List Effect :=
  if projector.elements_history.length = 0 then
    []
  else
    let lastElements : ProjectorElements :=
      projector.elements_history.getD (projector.elements_history.length - 1) []
    let lastElement : Option ProjectorElement := lastElements.head?
    let afterRemove := projector.removeAllNonStableElements
    let p1 := afterRemove.1
    let p2 := { p1 with
      elements_preview := afterRemove.2.foldl (fun acc e => e :: acc) p1.elements_preview }
    let p3 :=
      match lastElement with
      | some e => p2.addElement e
      | none => p2
    Effect.mutate p1 :: Effect.mutate p2 :: Effect.mutate p3 ::
      requestEffects (projectRequest (some p3.elements) (some p3.elements_preview) none true)

/-- Statement-order effect trace of `addElementToPreview`. -/
def addElementToPreviewTrace (projector : Projector) (element : ProjectorElement) : List Effect :=
  let p1 := { projector with elements_preview := projector.elements_preview ++ [element] }
  Effect.mutate p1 :: requestEffects (projectRequest none (some p1.elements_preview) none false)

/-- Number of non-stable elements currently in the projector's `elements`
sequence. -/
def nonStableCount (p : Projector) : Nat :=
  (p.elements.filter fun e => !e.stable).length

/-- Stated from the claim wording, not from the source: element resolution
that checks the build-basic-element capability first and the slide
capability second. -/
def getProjectorElementClaimOrder (obj : ProjectableInput) : ProjectorElement :=
  match obj.basicElement with
  | some basicElem => basicElem
  | none =>
    match obj.slideElement with
    | some slideElem => slideElem
    | none => obj.selfElement

/-- Field of the request as sent: `true` when no error was thrown, meaning
the post was issued. -/
def isErrorFree : Option (Except String ProjectRequest) → Bool
  | some (Except.error _) => false
  | _ => true

theorem filter_nonstable_filter_stable (l : List ProjectorElement) :
    ((l.filter fun e => e.stable).filter fun e => !e.stable) = [] := by
  induction l with
  | nil => rfl
  | cons a l ih => cases h : a.stable <;> simp [List.filter_cons, h, ih]

theorem length_filter_filter_le (p q : ProjectorElement → Bool) (l : List ProjectorElement) :
    ((l.filter q).filter p).length ≤ (l.filter p).length := by
  induction l with
  | nil => simp
  | cons a l ih =>
    cases hq : q a <;> cases hp : p a <;>
      simp [List.filter_cons, hq, hp, -List.filter_filter] <;> omega

theorem foldl_cons_eq_reverse_append (l acc : List ProjectorElement) :
    l.foldl (fun acc e => e :: acc) acc = l.reverse ++ acc := by
  induction l generalizing acc with
  | nil => rfl
  | cons a l ih => simp [List.foldl_cons, ih]

theorem any_elementsMatch_filter (l : List ProjectorElement) (e : ProjectorElement) :
    ((l.filter fun x => !(elementsMatch x e)).any fun x => elementsMatch x e) = false := by
  induction l with
  | nil => rfl
  | cons a l ih => cases h : elementsMatch a e <;> simp [List.filter_cons, h, ih]

theorem nonStableCount_addElement (p : Projector) (e : ProjectorElement) :
    nonStableCount (p.addElement e) =
      nonStableCount p + (if e.stable then 0 else 1) := by
  cases h : e.stable <;>
    simp [nonStableCount, Projector.addElement, List.filter_append, List.filter_cons, h]

theorem nonStableCount_removeAllNonStable (p : Projector) :
    nonStableCount p.removeAllNonStableElements.1 = 0 := by
  simp [nonStableCount, Projector.removeAllNonStableElements, filter_nonstable_filter_stable]

theorem projectRequest_no_append (e p : Option ProjectorElements) (d : Bool) :
    projectRequest e p none d =
      Except.ok { elements := e, preview := p, append_to_history := none,
                  delete_last_history_element := d } := rfl

theorem projectRequest_no_delete (e p : Option ProjectorElements) (a : ProjectorElements) :
    projectRequest e p (some a) false =
      Except.ok { elements := e, preview := p,
                  append_to_history := if a.length != 0 then some a else none,
                  delete_last_history_element := false } := by
  simp [projectRequest]

theorem nonStableCount_projectOn_le (p : Projector) (obj : ProjectableInput)
    (h : nonStableCount p ≤ 1) : nonStableCount (projectOn p obj).1 ≤ 1 := by
  cases hs : (getProjectorElement obj).stable
  case false =>
    simp [projectOn, hs, nonStableCount_addElement, nonStableCount_removeAllNonStable]
  case true =>
    simpa [projectOn, hs, nonStableCount_addElement] using h

theorem nonStableCount_removeFrom_le (p : Projector) (obj : ProjectableInput)
    (h : nonStableCount p ≤ 1) : nonStableCount (removeFrom p obj).1 ≤ 1 := by
  have hle :
      nonStableCount (p.removeElements (getProjectorElement obj)).1 ≤ nonStableCount p := by
    simpa [nonStableCount, Projector.removeElements] using
      length_filter_filter_le (fun e => !e.stable)
        (fun x => !(elementsMatch x (getProjectorElement obj))) p.elements
  have hfst : (removeFrom p obj).1 = (p.removeElements (getProjectorElement obj)).1 := rfl
  rw [hfst]
  exact Nat.le_trans hle h

theorem nonStableCount_projectPreviewSlide_le (p : Projector) (i : Int)
    (h : nonStableCount p ≤ 1) : nonStableCount (projectPreviewSlide p i).1 ≤ 1 := by
  unfold projectPreviewSlide
  split
  · exact h
  · dsimp only
    split
    · simp [nonStableCount, Projector.addElement, Projector.removeAllNonStableElements,
        List.filter_append, filter_nonstable_filter_stable]
      exact (List.length_filter_le _ _).trans (by simp)
    · simp [nonStableCount_removeAllNonStable]

theorem nonStableCount_projectPreviousSlide_le (p : Projector)
    (h : nonStableCount p ≤ 1) : nonStableCount (projectPreviousSlide p).1 ≤ 1 := by
  unfold projectPreviousSlide
  split
  · exact h
  · dsimp only
    split
    · simp [nonStableCount, Projector.addElement, Projector.removeAllNonStableElements,
        List.filter_append, filter_nonstable_filter_stable]
      exact (List.length_filter_le _ _).trans (by simp)
    · simp [nonStableCount, Projector.removeAllNonStableElements,
        filter_nonstable_filter_stable]

/-- Claim C1: starting from a projector whose `elements` sequence holds at
most one non-stable element, every state-changing operation of the
projector service (`projectOn`, `removeFrom`, `projectPreviewSlide`,
`projectNextSlide`, `projectPreviousSlide`, `addElementToPreview`,
`savePreview`) again leaves at most one non-stable element in `elements`. -/
theorem projector_ops_preserve_at_most_one_nonstable
    (p : Projector) (obj : ProjectableInput) (i : Int) (e : ProjectorElement)
    (h : nonStableCount p ≤ 1) :
    nonStableCount (projectOn p obj).1 ≤ 1 ∧
    nonStableCount (removeFrom p obj).1 ≤ 1 ∧
    nonStableCount (projectPreviewSlide p i).1 ≤ 1 ∧
    nonStableCount (projectNextSlide p).1 ≤ 1 ∧
    nonStableCount (projectPreviousSlide p).1 ≤ 1 ∧
    nonStableCount (addElementToPreview p e).1 ≤ 1 ∧
    nonStableCount (savePreview p).1 ≤ 1 := by
  refine ⟨nonStableCount_projectOn_le p obj h, nonStableCount_removeFrom_le p obj h,
    nonStableCount_projectPreviewSlide_le p i h, nonStableCount_projectPreviewSlide_le p 0 h,
    nonStableCount_projectPreviousSlide_le p h, ?_, ?_⟩
  · simpa [nonStableCount, addElementToPreview] using h
  · simpa [nonStableCount, savePreview] using h

def witnessElement : ProjectorElement := { name := "agenda/item", id := some 3, stable := false }

def witnessInput : ProjectableInput :=
  { slideElement := none, basicElement := none, selfElement := witnessElement }

def witnessProjector : Projector :=
  { id := 1
    elements := [{ name := "core/countdown", id := some 5, stable := false }]
    elements_preview := [{ name := "topics/topic", id := some 2, stable := false }]
    elements_history := [[{ name := "motions/motion", id := some 4, stable := false }]] }

/-- Witness for claim C1 at a concrete projector holding one non-stable
element. -/
theorem projector_ops_preserve_at_most_one_nonstable_witness :
    nonStableCount witnessProjector ≤ 1 ∧
    (nonStableCount (projectOn witnessProjector witnessInput).1 ≤ 1 ∧
     nonStableCount (removeFrom witnessProjector witnessInput).1 ≤ 1 ∧
     nonStableCount (projectPreviewSlide witnessProjector 0).1 ≤ 1 ∧
     nonStableCount (projectNextSlide witnessProjector).1 ≤ 1 ∧
     nonStableCount (projectPreviousSlide witnessProjector).1 ≤ 1 ∧
     nonStableCount (addElementToPreview witnessProjector witnessElement).1 ≤ 1 ∧
     nonStableCount (savePreview witnessProjector).1 ≤ 1) :=
  ⟨by decide, projector_ops_preserve_at_most_one_nonstable witnessProjector witnessInput 0
    witnessElement (by decide)⟩

def negIndexProjector : Projector :=
  { id := 2
    elements := []
    elements_preview := [{ name := "core/clock", id := some 1, stable := false }]
    elements_history := [] }

/-- Claim C2 is false as stated: index -1 is out of bounds of the non-empty
`elements_preview`, yet `projectPreviewSlide` changes the projector state,
because the guard only rejects indices at or above the length and
JavaScript `splice` resolves a negative start from the end of the array. -/
theorem projectPreviewSlide_out_of_bounds_counterexample :
    (negIndexProjector.elements_preview.length = 0 ∨ (-1 : Int) < 0 ∨
      (negIndexProjector.elements_preview.length : Int) ≤ -1) ∧
    (projectPreviewSlide negIndexProjector (-1)).1 ≠ negIndexProjector := by
  decide

/-- Claim C2 (amended): `projectPreviewSlide` leaves the projector unchanged
and issues no request when the preview queue is empty or the index is at
least the preview length; a negative index is not rejected but resolved
from the end of the preview by `splice`. -/
theorem projectPreviewSlide_noop_of_empty_or_too_large (p : Projector) (i : Int)
    (h : p.elements_preview.length = 0 ∨ (p.elements_preview.length : Int) ≤ i) :
    (projectPreviewSlide p i).1 = p ∧ (projectPreviewSlide p i).2 = none := by
  unfold projectPreviewSlide
  rw [if_pos h]
  exact ⟨rfl, rfl⟩

/-- Witness for the amended claim C2 at index 5 against a one-element
preview. -/
theorem projectPreviewSlide_noop_witness :
    (negIndexProjector.elements_preview.length = 0 ∨
      (negIndexProjector.elements_preview.length : Int) ≤ 5) ∧
    ((projectPreviewSlide negIndexProjector 5).1 = negIndexProjector ∧
     (projectPreviewSlide negIndexProjector 5).2 = none) :=
  ⟨Or.inr (by decide),
   projectPreviewSlide_noop_of_empty_or_too_large negIndexProjector 5 (Or.inr (by decide))⟩

def slideCapElement : ProjectorElement := { name := "motions/motion", id := some 1, stable := false }

def basicCapElement : ProjectorElement := { name := "mediafiles/mediafile", id := some 2, stable := false }

def fallbackElement : ProjectorElement := { name := "core/clock", id := none, stable := true }

def bothCapabilities : ProjectableInput :=
  { slideElement := some slideCapElement
    basicElement := some basicCapElement
    selfElement := fallbackElement }

def basicCapabilityOnly : ProjectableInput :=
  { slideElement := none, basicElement := some basicCapElement, selfElement := fallbackElement }

def noCapability : ProjectableInput :=
  { slideElement := none, basicElement := none, selfElement := fallbackElement }

/-- Claim C3 is false as stated: for an object exposing both the
build-basic-element capability and the slide conversion, the code uses the
slide's element, not the built basic element, so the resolution order of
the claim disagrees with `getProjectorElement`. -/
theorem getProjectorElement_order_counterexample :
    getProjectorElement bothCapabilities ≠ getProjectorElementClaimOrder bothCapabilities := by
  decide

/-- Claim C3 (amended): element resolution checks the capabilities in this
order — if the object can be converted to a slide, the slide's element is
used; otherwise, if the object exposes a build-basic-element capability,
that capability is used; otherwise the object itself is returned. -/
theorem getProjectorElement_resolution_order (obj : ProjectableInput) :
    (∀ e, obj.slideElement = some e → getProjectorElement obj = e) ∧
    (obj.slideElement = none →
      ∀ e, obj.basicElement = some e → getProjectorElement obj = e) ∧
    (obj.slideElement = none → obj.basicElement = none →
      getProjectorElement obj = obj.selfElement) := by
  refine ⟨?_, ?_, ?_⟩ <;> intros <;> simp [getProjectorElement, *]

/-- Witness for the amended claim C3 on the three capability shapes. -/
theorem getProjectorElement_resolution_order_witness :
    getProjectorElement bothCapabilities = slideCapElement ∧
    getProjectorElement basicCapabilityOnly = basicCapElement ∧
    getProjectorElement noCapability = fallbackElement :=
  ⟨(getProjectorElement_resolution_order bothCapabilities).1 slideCapElement rfl,
   (getProjectorElement_resolution_order basicCapabilityOnly).2.1 rfl basicCapElement rfl,
   (getProjectorElement_resolution_order noCapability).2.2 rfl rfl⟩

def twoNonStableProjector : Projector :=
  { id := 4
    elements := [{ name := "motions/motion", id := some 1, stable := false },
                 { name := "topics/topic", id := some 2, stable := false }]
    elements_preview := []
    elements_history := [[{ name := "agenda/item", id := some 3, stable := false }]] }

/-- Claim C4 is false as stated: on a projector with two non-stable elements
and a non-empty history, `projectPreviousSlide` neither removes the last
entry from the local `elements_history` (deletion is delegated to the
server via the request flag) nor preserves the order of the evicted
elements at the front of `elements_preview` (each one is unshifted in
turn, reversing the group). -/
theorem projectPreviousSlide_counterexample :
    twoNonStableProjector.elements_history ≠ [] ∧
    ¬((projectPreviousSlide twoNonStableProjector).1.elements_history =
        twoNonStableProjector.elements_history.dropLast ∧
      (projectPreviousSlide twoNonStableProjector).1.elements_preview =
        (twoNonStableProjector.elements.filter fun e => !e.stable) ++
          twoNonStableProjector.elements_preview) := by
  decide

/-- Claim C4 (amended): for every projector with non-empty
`elements_history`, `projectPreviousSlide` leaves the local
`elements_history` unchanged (removal of the last entry is delegated to
the server through `delete_last_history_element: true`), moves the current
non-stable elements to the front of `elements_preview` in reversed order,
adds the first element of the last history entry to `elements` when that
entry is non-empty, and sends a request containing the new elements, the
new preview, and `delete_last_history_element: true`. -/
theorem projectPreviousSlide_effect (p : Projector) (h : p.elements_history ≠ []) :
    (projectPreviousSlide p).1.elements_history = p.elements_history ∧
    (projectPreviousSlide p).1.elements_preview =
      (p.elements.filter fun e => !e.stable).reverse ++ p.elements_preview ∧
    (projectPreviousSlide p).1.elements =
      (match (p.elements_history.getD (p.elements_history.length - 1) []).head? with
       | some e => (p.elements.filter fun x => x.stable) ++ [e]
       | none => p.elements.filter fun x => x.stable) ∧
    (projectPreviousSlide p).2 =
      some (Except.ok
        { elements := some (projectPreviousSlide p).1.elements
          preview := some (projectPreviousSlide p).1.elements_preview
          append_to_history := none
          delete_last_history_element := true }) := by
  have hlen : ¬ p.elements_history.length = 0 := by
    simpa [List.length_eq_zero] using h
  unfold projectPreviousSlide
  rw [if_neg hlen]
  dsimp only
  cases hhead : (p.elements_history.getD (p.elements_history.length - 1) []).head? with
  | none =>
    simp [hhead, Projector.removeAllNonStableElements, foldl_cons_eq_reverse_append,
      projectRequest_no_append]
  | some e =>
    simp [hhead, Projector.addElement, Projector.removeAllNonStableElements,
      foldl_cons_eq_reverse_append, projectRequest_no_append]

def historyProjector : Projector :=
  { id := 5
    elements := [{ name := "core/countdown", id := some 1, stable := true },
                 { name := "motions/motion", id := some 2, stable := false }]
    elements_preview := [{ name := "topics/topic", id := some 3, stable := false }]
    elements_history := [[{ name := "agenda/item", id := some 4, stable := false }]] }

/-- Witness for the amended claim C4 at a concrete projector with one
stable and one non-stable element and a one-entry history. -/
theorem projectPreviousSlide_effect_witness :
    historyProjector.elements_history ≠ [] ∧
    ((projectPreviousSlide historyProjector).1.elements_history =
        historyProjector.elements_history ∧
     (projectPreviousSlide historyProjector).1.elements_preview =
        (historyProjector.elements.filter fun e => !e.stable).reverse ++
          historyProjector.elements_preview ∧
     (projectPreviousSlide historyProjector).1.elements =
        (match (historyProjector.elements_history.getD
            (historyProjector.elements_history.length - 1) []).head? with
         | some e => (historyProjector.elements.filter fun x => x.stable) ++ [e]
         | none => historyProjector.elements.filter fun x => x.stable) ∧
     (projectPreviousSlide historyProjector).2 =
        some (Except.ok
          { elements := some (projectPreviousSlide historyProjector).1.elements
            preview := some (projectPreviousSlide historyProjector).1.elements_preview
            append_to_history := none
            delete_last_history_element := true })) :=
  ⟨by decide, projectPreviousSlide_effect historyProjector (by decide)⟩

def elemA : ProjectorElement := { name := "A", id := none, stable := true }

def elemB : ProjectorElement := { name := "B", id := some 1, stable := false }

def elemC : ProjectorElement := { name := "C", id := some 2, stable := false }

def scenarioProjector : Projector :=
  { id := 6, elements := [elemA], elements_preview := [elemB, elemC], elements_history := [] }

/-- Claim C5 is false as stated: in the scenario the evicted set is empty,
and `projectRequest` omits `append_to_history` from the body when the
given list is empty, so the request does not contain
`append_to_history: []`. -/
theorem scenario_request_counterexample :
    (projectPreviewSlide scenarioProjector 1).2 ≠
      some (Except.ok
        { elements := some [elemA, elemC]
          preview := some [elemB]
          append_to_history := some []
          delete_last_history_element := false }) := by
  decide

/-- Claim C5 (amended): for the scenario projector with
`elements = [A (stable)]` and `elements_preview = [B, C]`,
`projectPreviewSlide(projector, 1)` yields `elements = [A, C]`,
`elements_preview = [B]`, and a request containing the new elements and
the new preview; `append_to_history` is omitted because the evicted set is
empty. -/
theorem scenario_request :
    (projectPreviewSlide scenarioProjector 1).1.elements = [elemA, elemC] ∧
    (projectPreviewSlide scenarioProjector 1).1.elements_preview = [elemB] ∧
    (projectPreviewSlide scenarioProjector 1).2 =
      some (Except.ok
        { elements := some [elemA, elemC]
          preview := some [elemB]
          append_to_history := none
          delete_last_history_element := false }) := by
  decide

/-- Claim C6: the request builder throws a synchronous error (and posts
nothing, since the throw precedes the post) exactly when both a non-empty
append-to-history list and the delete-last-history-element flag are
supplied. -/
theorem projectRequest_error_iff (e p a : Option ProjectorElements) (d : Bool) :
    (∃ msg, projectRequest e p a d = Except.error msg) ↔
      ((∃ l, a = some l ∧ l ≠ []) ∧ d = true) := by
  cases a with
  | none => simp [projectRequest]
  | some l =>
    by_cases hl : l = [] <;> cases d <;> simp [projectRequest, hl, List.length_eq_zero]

/-- Claim C7: a login submission whose username has length 129 (exceeding
the 128-character maximum) is rejected by form validation before any
network call to `authService.login` is made. -/
theorem login_rejects_overlong_username (username password : String)
    (h : username.length = 129) : loginSubmit username password = none := by
  simp [loginSubmit, loginFormValid, loginFieldValid, h]

def overlongUsername : String := String.mk (List.replicate 129 'a')

set_option maxRecDepth 4096 in
/-- Witness for claim C7 at a concrete 129-character username. -/
theorem login_rejects_overlong_username_witness :
    overlongUsername.length = 129 ∧ loginSubmit overlongUsername "opensecret" = none :=
  ⟨by decide, login_rejects_overlong_username overlongUsername "opensecret" (by decide)⟩

/-- Claim C8: `removeFrom` followed by `isProjectedOn` for the same object
and projector returns false, because `removeFrom` removes every occurrence
matching the resolved element by the same identifying equality that the
membership test uses. -/
theorem removeFrom_then_not_projected (projector : Projector) (obj : ProjectableInput) :
    isProjectedOn obj (removeFrom projector obj).1 = false := by
  simp [removeFrom, isProjectedOn, Projector.isElementShown, Projector.removeElements,
    any_elementsMatch_filter]

theorem projectRequest_ok_no_delete (e p a : Option ProjectorElements) :
    isErrorFree (some (projectRequest e p a false)) = true := by
  cases a <;> simp [projectRequest, isErrorFree]

theorem projectRequest_ok_no_append (e p : Option ProjectorElements) (d : Bool) :
    isErrorFree (some (projectRequest e p none d)) = true := by
  simp [projectRequest, isErrorFree]

theorem isErrorFree_projectOn (p : Projector) (obj : ProjectableInput) :
    isErrorFree (projectOn p obj).2 = true := by
  cases hs : (getProjectorElement obj).stable <;>
    simp [projectOn, hs, projectRequest_ok_no_delete]

theorem isErrorFree_removeFrom (p : Projector) (obj : ProjectableInput) :
    isErrorFree (removeFrom p obj).2 = true := by
  unfold removeFrom
  dsimp only
  split
  · split <;> simp [projectRequest_ok_no_delete]
  · rfl

theorem isErrorFree_projectPreviewSlide (p : Projector) (i : Int) :
    isErrorFree (projectPreviewSlide p i).2 = true := by
  unfold projectPreviewSlide
  split
  · rfl
  · dsimp only
    split
    · simp [projectRequest_ok_no_delete]
    · rfl

theorem isErrorFree_projectPreviousSlide (p : Projector) :
    isErrorFree (projectPreviousSlide p).2 = true := by
  unfold projectPreviousSlide
  split
  · rfl
  · dsimp only
    split <;> simp [projectRequest_ok_no_append]

/-- Claim C9: every public operation of the projector service passes at most
one of a non-empty append-to-history list and the delete flag to the
request builder, so the append-and-delete error branch is unreachable
through the public interface: no operation ever yields an error result. -/
theorem public_ops_never_error (p : Projector) (obj : ProjectableInput)
    (i : Int) (e : ProjectorElement) :
    isErrorFree (projectOn p obj).2 = true ∧
    isErrorFree (removeFrom p obj).2 = true ∧
    isErrorFree (projectPreviewSlide p i).2 = true ∧
    isErrorFree (projectNextSlide p).2 = true ∧
    isErrorFree (projectPreviousSlide p).2 = true ∧
    isErrorFree (savePreview p).2 = true ∧
    isErrorFree (addElementToPreview p e).2 = true := by
  refine ⟨isErrorFree_projectOn p obj, isErrorFree_removeFrom p obj,
    isErrorFree_projectPreviewSlide p i, isErrorFree_projectPreviewSlide p 0,
    isErrorFree_projectPreviousSlide p, ?_, ?_⟩
  · simp [savePreview, projectRequest_ok_no_delete]
  · simp [addElementToPreview, projectRequest_ok_no_delete]

theorem fst_ite_pair (c : Prop) [Decidable c] (x : Projector) (a b : Bool) :
    (if c then (x, a) else (x, b)).1 = x := by
  split <;> rfl

theorem runTrace_requestEffects (s : Projector) (tf : Bool) (r : Except String ProjectRequest) :
    (runTrace s tf (requestEffects r)).1 = s := by
  cases r <;> cases tf <;> simp [requestEffects, runTrace]

theorem runTrace_projectOnTrace (p : Projector) (obj : ProjectableInput) (tf : Bool) :
    (runTrace p tf (projectOnTrace p obj)).1 = (projectOn p obj).1 := by
  cases hs : (getProjectorElement obj).stable <;>
    simp [projectOnTrace, projectOn, hs, runTrace, runTrace_requestEffects, fst_ite_pair]

theorem runTrace_removeFromTrace (p : Projector) (obj : ProjectableInput) (tf : Bool) :
    (runTrace p tf (removeFromTrace p obj)).1 = (removeFrom p obj).1 := by
  unfold removeFromTrace removeFrom
  dsimp only
  split
  · split <;> simp [runTrace, runTrace_requestEffects, fst_ite_pair]
  · simp [runTrace]

theorem runTrace_projectPreviewSlideTrace (p : Projector) (i : Int) (tf : Bool) :
    (runTrace p tf (projectPreviewSlideTrace p i)).1 = (projectPreviewSlide p i).1 := by
  unfold projectPreviewSlideTrace projectPreviewSlide
  split
  · simp [runTrace]
  · dsimp only
    split <;> simp [runTrace, runTrace_requestEffects, fst_ite_pair]

theorem runTrace_projectPreviousSlideTrace (p : Projector) (tf : Bool) :
    (runTrace p tf (projectPreviousSlideTrace p)).1 = (projectPreviousSlide p).1 := by
  unfold projectPreviousSlideTrace projectPreviousSlide
  split
  · simp [runTrace]
  · dsimp only
    split <;> simp [runTrace, runTrace_requestEffects, fst_ite_pair]

theorem runTrace_addElementToPreviewTrace (p : Projector) (e : ProjectorElement) (tf : Bool) :
    (runTrace p tf (addElementToPreviewTrace p e)).1 = (addElementToPreview p e).1 := by
  simp [addElementToPreviewTrace, addElementToPreview, runTrace, runTrace_requestEffects,
    fst_ite_pair]

/-- Claim C10: for each state-changing operation, running its
statement-order effect trace ends in the operation's mutated state whether
or not the transport fails: every in-memory mutation completes before the
HTTP request is issued, and a transport failure does not roll the local
mutation back. -/
theorem mutations_precede_request_and_persist (p : Projector) (obj : ProjectableInput)
    (i : Int) (e : ProjectorElement) (tf : Bool) :
    (runTrace p tf (projectOnTrace p obj)).1 = (projectOn p obj).1 ∧
    (runTrace p tf (removeFromTrace p obj)).1 = (removeFrom p obj).1 ∧
    (runTrace p tf (projectPreviewSlideTrace p i)).1 = (projectPreviewSlide p i).1 ∧
    (runTrace p tf (projectPreviousSlideTrace p)).1 = (projectPreviousSlide p).1 ∧
    (runTrace p tf (addElementToPreviewTrace p e)).1 = (addElementToPreview p e).1 :=
  ⟨runTrace_projectOnTrace p obj tf, runTrace_removeFromTrace p obj tf,
   runTrace_projectPreviewSlideTrace p i tf, runTrace_projectPreviousSlideTrace p tf,
   runTrace_addElementToPreviewTrace p e tf⟩
